import Mathlib

/-!
Shallow embedding of the document-sharing feed server (storage layer and the
like/comment routes).  `MemStorage` is modelled as a pure state-passing
structure `MemState`; `DatabaseStorage` as `DbState`, with the
`likePost` implementation split at its `await` boundaries into a read
phase and a write phase so that interleavings of concurrent requests can
be examined.  JavaScript numbers holding counters are modelled as `Int`
(the code clamps with `Math.max(0, ...)`), timestamps as `Nat`
milliseconds, and the `Map`s of `MemStorage` as a function map for posts,
an insertion-ordered list for users and comments, and a `Finset` of
`(postId, userId)` pairs for the like relation (the string key
`"${id}-${userId}"` is in bijection with the pair, `'-'` not being a
digit).
-/

namespace DocShare

/-- `users` table row (shared schema). -/
structure User where
  id : Nat
  username : String
  password : String
  fullName : String
  avatar : Option String
  role : Option String
deriving DecidableEq, Repr

/-- `posts` table row (shared schema); `likes` and `comments` are the
denormalized counters. -/
structure Post where
  id : Nat
  title : String
  description : String
  fileName : Option String
  userId : Nat
  createdAt : Nat
  likes : Int
  comments : Int
deriving DecidableEq, Repr

/-- `comments` table row (shared schema). -/
structure Comment where
  id : Nat
  content : String
  postId : Nat
  userId : Nat
  createdAt : Nat
deriving DecidableEq, Repr

/-- `post_likes` table row (shared schema): composite key `(postId, userId)`
plus a timestamp. -/
structure PostLikeRow where
  postId : Nat
  userId : Nat
  createdAt : Nat
deriving DecidableEq, Repr

/-- Activity view object (client `types.ts`). -/
structure Activity where
  id : Nat
  user : User
  action : String
  target : String
  timeAgo : String
deriving DecidableEq, Repr

/-- `InsertUser` (schema insert shape). -/
structure InsertUser where
  username : String
  password : String
  fullName : String
  avatar : Option String
  role : Option String
deriving DecidableEq, Repr

/-- `InsertPost` as the route builds it: title, description, optional file
name, owner id. -/
structure InsertPost where
  title : String
  description : String
  fileName : Option String
  userId : Nat
deriving DecidableEq, Repr

/-- `InsertComment` (schema insert shape). -/
structure InsertComment where
  content : String
  postId : Nat
  userId : Nat
deriving DecidableEq, Repr

/-- JavaScript `x || null` on an optional string: the empty string is falsy
and collapses to `null`. -/
def orNull : Option String → Option String
  | none => none
  | some s => if s = "" then none else some s

/-- State of `MemStorage`: the four entity collections and the id counters.
The `activities` map is omitted: it is only read back verbatim and no
claim about `MemStorage` touches it. -/
structure MemState where
  users : List User
  posts : Nat → Option Post
  postLikes : Finset (Nat × Nat)
  comments : List Comment
  userCurrentId : Nat
  postCurrentId : Nat
  commentCurrentId : Nat

/-- `MemStorage` state right after the constructor's field initialisation,
before `initDemoData` runs. -/
def emptyMem : MemState :=
  { users := []
    posts := fun _ => none
    postLikes := ∅
    comments := []
    userCurrentId := 1
    postCurrentId := 1
    commentCurrentId := 1 }

/-- `MemStorage.createUserInternal`: assign the next user id, normalise the
nullable fields with `|| null`, store the user. -/
def memCreateUserInternal (s : MemState) (d : InsertUser) : User × MemState :=
  let id := s.userCurrentId
  let user : User :=
    { id := id
      username := d.username
      password := d.password
      fullName := d.fullName
      avatar := orNull d.avatar
      role := orNull d.role }
  (user, { s with users := s.users ++ [user], userCurrentId := s.userCurrentId + 1 })

/-- `MemStorage.createUser` just delegates to `createUserInternal`
(no username-uniqueness check appears in the source). -/
def memCreateUser (s : MemState) (d : InsertUser) : User × MemState :=
  memCreateUserInternal s d

/-- `MemStorage.getUserByUsername`: first user in insertion order with the
given username. -/
def memGetUserByUsername (s : MemState) (username : String) : Option User :=
  s.users.find? (fun u => u.username == username)

/-- `MemStorage.getUserById`. -/
def memGetUserById (s : MemState) (id : Nat) : Option User :=
  s.users.find? (fun u => u.id == id)

/-- Argument shape of `MemStorage.createPostInternal` (`Omit<Post, "id">`). -/
structure PostData where
  title : String
  description : String
  fileName : Option String
  userId : Nat
  createdAt : Nat
  likes : Int
  comments : Int
deriving DecidableEq, Repr

/-- `MemStorage.createPostInternal`: assign the next post id and store. -/
def memCreatePostInternal (s : MemState) (d : PostData) : Post × MemState :=
  let id := s.postCurrentId
  let post : Post :=
    { id := id
      title := d.title
      description := d.description
      fileName := d.fileName
      userId := d.userId
      createdAt := d.createdAt
      likes := d.likes
      comments := d.comments }
  (post,
   { s with posts := fun i => if i = id then some post else s.posts i
            postCurrentId := s.postCurrentId + 1 })

/-- `MemStorage.createPost`: fresh post with `likes = 0`, `comments = 0`,
`createdAt = now`, `fileName || null`. -/
def memCreatePost (s : MemState) (d : InsertPost) (now : Nat) : Post × MemState :=
  memCreatePostInternal s
    { title := d.title
      description := d.description
      fileName := orNull d.fileName
      userId := d.userId
      createdAt := now
      likes := 0
      comments := 0 }

/-- `MemStorage.hasUserLikedPost`: membership of the `(postId, userId)` key
in the like map. -/
def memHasUserLikedPost (s : MemState) (postId userId : Nat) : Bool :=
  (postId, userId) ∈ s.postLikes

/-- `MemStorage.likePost`: `undefined` if the post is missing; otherwise
toggle — if the pair is present, delete it and write
`likes := Math.max(0, likes - 1)`; if absent, insert it and write
`likes := likes + 1` (on an `Int` counter, `likes || 0` is the identity). -/
def memLikePost (s : MemState) (id userId : Nat) : Option Post × MemState :=
  match s.posts id with
  | none => (none, s)
  | some post =>
    if (id, userId) ∈ s.postLikes then
      let updatedPost := { post with likes := max 0 (post.likes - 1) }
      (some updatedPost,
       { s with postLikes := s.postLikes.erase (id, userId)
                posts := fun i => if i = id then some updatedPost else s.posts i })
    else
      let updatedPost := { post with likes := post.likes + 1 }
      (some updatedPost,
       { s with postLikes := insert (id, userId) s.postLikes
                posts := fun i => if i = id then some updatedPost else s.posts i })

/-- `MemStorage.createComment`: assign the next comment id with
`createdAt = now`, append it, and bump the owning post's `comments`
counter when the post exists. -/
def memCreateComment (s : MemState) (d : InsertComment) (now : Nat) : Comment × MemState :=
  let id := s.commentCurrentId
  let c : Comment :=
    { id := id
      content := d.content
      postId := d.postId
      userId := d.userId
      createdAt := now }
  let s1 := { s with comments := s.comments ++ [c], commentCurrentId := s.commentCurrentId + 1 }
  match s.posts d.postId with
  | some post =>
      let updatedPost := { post with comments := post.comments + 1 }
      (c, { s1 with posts := fun i => if i = d.postId then some updatedPost else s.posts i })
  | none => (c, s1)

/-- `MemStorage.getCommentsByPostId`, restricted to the comment rows (the
author/timeAgo decoration does not affect the list's membership, length or
order): filter by post and stable-sort newest-first, mirroring the
JavaScript comparator `b.createdAt - a.createdAt`. -/
def memGetCommentsByPostId (s : MemState) (postId : Nat) : List Comment :=
  (s.comments.filter (fun c => c.postId == postId)).mergeSort
    (fun a b => decide (b.createdAt ≤ a.createdAt))

/-- `getTimeAgo` of both storage classes, as a function of the elapsed
whole seconds (`Math.floor((now - date) / 1000)`). -/
def getTimeAgoSec (diffInSeconds : Nat) : String :=
  if diffInSeconds < 60 then
    toString diffInSeconds ++ " seconds ago"
  else
    let diffInMinutes := diffInSeconds / 60
    if diffInMinutes < 60 then
      toString diffInMinutes ++ " " ++ (if diffInMinutes = 1 then "minute" else "minutes") ++ " ago"
    else
      let diffInHours := diffInMinutes / 60
      if diffInHours < 24 then
        toString diffInHours ++ " " ++ (if diffInHours = 1 then "hour" else "hours") ++ " ago"
      else
        let diffInDays := diffInHours / 24
        if diffInDays < 30 then
          toString diffInDays ++ " " ++ (if diffInDays = 1 then "day" else "days") ++ " ago"
        else
          let diffInMonths := diffInDays / 30
          toString diffInMonths ++ " " ++ (if diffInMonths = 1 then "month" else "months") ++ " ago"

/-- `getTimeAgo` on millisecond timestamps. -/
def getTimeAgo (nowMs dateMs : Nat) : String :=
  getTimeAgoSec ((nowMs - dateMs) / 1000)

/-- The bucketing rule exactly as the specification words it, to be compared
with `getTimeAgoSec`: thresholds 60 seconds / 60 minutes / 24 hours /
30 days, counts by integer division (months as days / 30), and for the
minute/hour/day/month buckets the singular form exactly when the count is
1 (the seconds bucket is fixed as "N seconds ago"). -/
def timeAgoSpecFn (d : Nat) : String :=
  if d < 60 then
    toString d ++ " seconds ago"
  else if d < 60 * 60 then
    specUnit (d / 60) "minute"
  else if d < 24 * 60 * 60 then
    specUnit (d / (60 * 60)) "hour"
  else if d < 30 * 24 * 60 * 60 then
    specUnit (d / (24 * 60 * 60)) "day"
  else
    specUnit (d / (24 * 60 * 60) / 30) "month"
where
  specUnit (n : Nat) (unit : String) : String :=
    toString n ++ " " ++ (if n = 1 then unit else unit ++ "s") ++ " ago"

/-- State of `DatabaseStorage`'s tables. -/
structure DbState where
  users : List User
  posts : Nat → Option Post
  postLikes : List PostLikeRow
  comments : List Comment

/-- `DatabaseStorage.hasUserLikedPost`: `select ... where postId = ... and
userId = ...` returns a nonempty result. -/
def dbHasUserLikedPost (s : DbState) (postId userId : Nat) : Bool :=
  decide (0 < (s.postLikes.filter (fun r => r.postId == postId && r.userId == userId)).length)

/-- `DatabaseStorage.getRecentActivities`: the source returns an empty
array unconditionally (no activities table exists yet). -/
def dbGetRecentActivities (_s : DbState) : List Activity := []

/-- The read phase of `DatabaseStorage.likePost` — everything up to the
last `await` before any write: `select` the post row (snapshotting its
`likes` value) and read the like-row membership. -/
def dbLikePostRead (s : DbState) (id userId : Nat) : Option (Post × Bool) :=
  match s.posts id with
  | none => none
  | some post => some (post, dbHasUserLikedPost s id userId)

/-- The write phase of `DatabaseStorage.likePost`, applied to the state at
write time but computing from the `snap` taken by `dbLikePostRead` (the
source wraps these statements in no transaction): delete or insert the
like row, then `update posts set likes = <absolute value computed from the
snapshot>` and return the updated row. -/
def dbLikePostWrite (s : DbState) (id userId now : Nat) (snap : Post × Bool) :
    Option Post × DbState :=
  let post := snap.1
  if snap.2 then
    let s1 :=
      { s with postLikes :=
          s.postLikes.filter (fun r => !(r.postId == id && r.userId == userId)) }
    let newLikes := max 0 (post.likes - 1)
    ((s1.posts id).map (fun p => { p with likes := newLikes }),
     { s1 with posts := fun i =>
         if i = id then (s1.posts i).map (fun p => { p with likes := newLikes })
         else s1.posts i })
  else
    let s1 := { s with postLikes := s.postLikes ++ [PostLikeRow.mk id userId now] }
    let newLikes := post.likes + 1
    ((s1.posts id).map (fun p => { p with likes := newLikes }),
     { s1 with posts := fun i =>
         if i = id then (s1.posts i).map (fun p => { p with likes := newLikes })
         else s1.posts i })

/-- `DatabaseStorage.likePost` run without interleaving: the read phase
immediately followed by the write phase. -/
def dbLikePost (s : DbState) (id userId now : Nat) : Option Post × DbState :=
  match dbLikePostRead s id userId with
  | none => (none, s)
  | some snap => dbLikePostWrite s id userId now snap

/-- `DatabaseStorage.createComment`: a single `db.transaction` that inserts
the comment (serial id, `createdAt = now`) and applies the relative SQL
delta `comments = comments + 1` on the owning post — the counter read and
write happen inside the transaction, not from a prior snapshot. -/
def dbCreateComment (s : DbState) (d : InsertComment) (now newId : Nat) :
    Comment × DbState :=
  let c : Comment :=
    { id := newId
      content := d.content
      postId := d.postId
      userId := d.userId
      createdAt := now }
  (c,
   { s with comments := s.comments ++ [c]
            posts := fun i =>
              if i = d.postId then (s.posts i).map (fun p => { p with comments := p.comments + 1 })
              else s.posts i })

/-- `DatabaseStorage.getCommentsByPostId`, restricted to the comment rows
(author/timeAgo decoration does not affect membership, length or order):
the SQL `orderBy(comments.createdAt)` (ascending), then the final
JavaScript stable sort newest-first on the decorated list. -/
def dbGetCommentsByPostId (s : DbState) (postId : Nat) : List Comment :=
  ((s.comments.filter (fun c => c.postId == postId)).mergeSort
      (fun a b => decide (a.createdAt ≤ b.createdAt))).mergeSort
    (fun a b => decide (b.createdAt ≤ a.createdAt))

/-- Response of the `POST /api/posts/:id/like` route (for an authenticated
request with a valid numeric id). -/
inductive LikeResponse where
  | notFound
  | ok (post : Post) (hasLiked : Bool)
deriving DecidableEq, Repr

/-- The `hasLiked` flag carried by a successful like-route response. -/
def LikeResponse.likedFlag : LikeResponse → Option Bool
  | .notFound => none
  | .ok _ b => some b

/-- The `POST /api/posts/:id/like` handler after authentication and id
parsing: read the current like status, toggle via `likePost`, answer 404
when the post is missing, else return the post with the complement of the
status read before the toggle. -/
def likeRoute (s : DbState) (postId userId now : Nat) : LikeResponse × DbState :=
  let hasLiked := dbHasUserLikedPost s postId userId
  match dbLikePost s postId userId now with
  | (none, s1) => (LikeResponse.notFound, s1)
  | (some post, s1) => (LikeResponse.ok post (!hasLiked), s1)

/-- The `GET /api/activities` handler body: return whatever
`getRecentActivities` yields. -/
def activitiesRoute (s : DbState) : List Activity :=
  dbGetRecentActivities s

/-- `MemStorage.initDemoData` applied to the fresh constructor state: three
demo users and two demo posts (`now0` stands for `Date.now()` in
milliseconds; the demo activities are omitted with the activities map). -/
def memInit (now0 : Nat) : MemState :=
  let r1 := memCreateUserInternal emptyMem
    { username := "alex.johnson"
      password := "password123"
      fullName := "Alex Johnson"
      avatar := some "https://images.unsplash.com/photo-1599566150163-29194dcaad36"
      role := some "Product Manager" }
  let r2 := memCreateUserInternal r1.2
    { username := "emma.thompson"
      password := "password123"
      fullName := "Emma Thompson"
      avatar := some "https://images.unsplash.com/photo-1580489944761-15a19d654956"
      role := some "Marketing Manager" }
  let r3 := memCreateUserInternal r2.2
    { username := "marcus.wilson"
      password := "password123"
      fullName := "Marcus Wilson"
      avatar := some "https://images.unsplash.com/photo-1506794778202-cad84cf45f1d"
      role := some "Product Lead" }
  let p1 := memCreatePostInternal r3.2
    { title := "Q2 2023 Marketing Strategy Document"
      description := "This comprehensive document outlines our marketing strategy for Q2 2023, including target audiences, campaign timelines, budget allocation, and KPIs. Please review and provide feedback by Friday."
      fileName := some "Q2_Marketing_Strategy.pdf"
      userId := r2.1.id
      createdAt := now0 - 7200000
      likes := 24
      comments := 8 }
  let p2 := memCreatePostInternal p1.2
    { title := "Product Roadmap 2023-2024"
      description := "Here's our updated product roadmap for the next 18 months. I've highlighted the key milestones and dependencies between different product teams."
      fileName := some "Product_Roadmap_2023_2024.pdf"
      userId := r3.1.id
      createdAt := now0 - 86400000
      likes := 42
      comments := 16 }
  p2.2

/-- Number of rows of the like relation belonging to a post (the count the
denormalized `Post.likes` is supposed to mirror). -/
def likersCount (s : MemState) (pid : Nat) : Nat :=
  (s.postLikes.filter (fun q => q.1 = pid)).card

/-- A sequence of `likePost` toggles applied in order (each element is a
`(postId, userId)` pair). -/
def memApplyToggles (s : MemState) : List (Nat × Nat) → MemState
  | [] => s
  | t :: ts => memApplyToggles (memLikePost s t.1 t.2).2 ts

/-- A fixed current time for concrete executions (milliseconds). -/
def demoNow : Nat := 1700000000000

/-- The seeded `MemStorage` at time `demoNow`. -/
def memDemo : MemState := memInit demoNow

/-- The first demo post as stored by `initDemoData`. -/
def demoPost1 : Post :=
  { id := 1
    title := "Q2 2023 Marketing Strategy Document"
    description := "This comprehensive document outlines our marketing strategy for Q2 2023, including target audiences, campaign timelines, budget allocation, and KPIs. Please review and provide feedback by Friday."
    fileName := some "Q2_Marketing_Strategy.pdf"
    userId := 2
    createdAt := demoNow - 7200000
    likes := 24
    comments := 8 }

/-- An empty database state. -/
def emptyDb : DbState :=
  { users := [], posts := fun _ => none, postLikes := [], comments := [] }

/-- A small database post with no likes yet. -/
def dbPost1 : Post :=
  { id := 1
    title := "Roadmap"
    description := "doc"
    fileName := none
    userId := 1
    createdAt := 1000
    likes := 0
    comments := 0 }

/-- A database state holding just `dbPost1` and no like rows. -/
def dbDemo : DbState :=
  { users := [], posts := fun i => if i = 1 then some dbPost1 else none
    postLikes := [], comments := [] }

/-- The fields of a post other than the `likes` counter, used to state
frame conditions. -/
def frameFields (p : Post) : Nat × String × String × Option String × Nat × Nat × Int :=
  (p.id, p.title, p.description, p.fileName, p.userId, p.createdAt, p.comments)

/-- C1: for every existing post and user, `likePost` follows the toggle
transition rule — a present `(post, user)` pair is removed and the counter
becomes `max 0 (likes - 1)`, an absent pair is inserted and the counter
becomes `likes + 1`, the updated post is returned (shown in full for
`MemStorage` and for `DatabaseStorage` run without interleaving) — and the
like-toggle endpoint returns the complement of the like status read before
the toggle. -/
theorem likePost_toggle_rule (s : MemState) (t : DbState) (pid uid now : Nat)
    (p : Post) (hp : s.posts pid = some p) (q : Post) (hq : t.posts pid = some q) :
    ((pid, uid) ∈ s.postLikes →
       memLikePost s pid uid =
         (some { p with likes := max 0 (p.likes - 1) },
          { s with postLikes := s.postLikes.erase (pid, uid)
                   posts := fun i =>
                     if i = pid then some { p with likes := max 0 (p.likes - 1) }
                     else s.posts i })) ∧
    ((pid, uid) ∉ s.postLikes →
       memLikePost s pid uid =
         (some { p with likes := p.likes + 1 },
          { s with postLikes := insert (pid, uid) s.postLikes
                   posts := fun i =>
                     if i = pid then some { p with likes := p.likes + 1 }
                     else s.posts i })) ∧
    (dbHasUserLikedPost t pid uid = true →
       (dbLikePost t pid uid now).1 = some { q with likes := max 0 (q.likes - 1) } ∧
       dbHasUserLikedPost (dbLikePost t pid uid now).2 pid uid = false) ∧
    (dbHasUserLikedPost t pid uid = false →
       (dbLikePost t pid uid now).1 = some { q with likes := q.likes + 1 } ∧
       dbHasUserLikedPost (dbLikePost t pid uid now).2 pid uid = true) ∧
    (likeRoute t pid uid now).1.likedFlag = some (!dbHasUserLikedPost t pid uid) := by
  refine ⟨fun hm => ?_, fun hm => ?_, fun hb => ?_, fun hb => ?_, ?_⟩
  · simp [memLikePost, hp, hm]
  · simp [memLikePost, hp, hm]
  · have hb' : 0 < (t.postLikes.filter (fun r => r.postId == pid && r.userId == uid)).length := by
      simpa [dbHasUserLikedPost] using hb
    refine ⟨by simp [dbLikePost, dbLikePostRead, dbLikePostWrite, dbHasUserLikedPost, hq, hb'], ?_⟩
    simp only [dbLikePost, dbLikePostRead, dbLikePostWrite, dbHasUserLikedPost, hq, hb',
      if_pos, if_true, decide_eq_false_iff_not]
    simp [hb', List.mem_filter]
  · have hb' : ¬ 0 < (t.postLikes.filter (fun r => r.postId == pid && r.userId == uid)).length := by
      simpa [dbHasUserLikedPost] using hb
    exact ⟨by simp [dbLikePost, dbLikePostRead, dbLikePostWrite, dbHasUserLikedPost, hq, hb'],
      by simp [dbLikePost, dbLikePostRead, dbLikePostWrite, dbHasUserLikedPost, hq, hb',
        List.filter_append]⟩
  · by_cases hb : dbHasUserLikedPost t pid uid
    · have hb' : 0 < (t.postLikes.filter (fun r => r.postId == pid && r.userId == uid)).length := by
        simpa [dbHasUserLikedPost] using hb
      simp [likeRoute, dbLikePost, dbLikePostRead, dbLikePostWrite, dbHasUserLikedPost, hq, hb',
        LikeResponse.likedFlag]
    · have hb' : ¬ 0 < (t.postLikes.filter (fun r => r.postId == pid && r.userId == uid)).length := by
        simpa [dbHasUserLikedPost] using hb
      simp [likeRoute, dbLikePost, dbLikePostRead, dbLikePostWrite, dbHasUserLikedPost, hq, hb',
        LikeResponse.likedFlag]

set_option maxRecDepth 4000 in
/-- Witness for C1: user 1 toggles a like on the seeded demo post 1
(absent pair: inserted, 24 → 25), and on the database store the endpoint
answers with the complement of the pre-toggle status. -/
theorem likePost_toggle_rule_w :
    memDemo.posts 1 = some demoPost1 ∧
    dbDemo.posts 1 = some dbPost1 ∧
    (memLikePost memDemo 1 1 =
      (some { demoPost1 with likes := demoPost1.likes + 1 },
       { memDemo with postLikes := insert (1, 1) memDemo.postLikes
                      posts := fun i =>
                        if i = 1 then some { demoPost1 with likes := demoPost1.likes + 1 }
                        else memDemo.posts i })) ∧
    (likeRoute dbDemo 1 1 500).1.likedFlag = some (!dbHasUserLikedPost dbDemo 1 1) := by
  have h := likePost_toggle_rule memDemo dbDemo 1 1 500 demoPost1 (by decide) dbPost1 (by decide)
  exact ⟨by decide, by decide, h.2.1 (by decide), h.2.2.2.2⟩

/-- C3: two consecutive `likePost` calls by the same user on an existing
post, with nothing in between, restore the user's like status and the
post record (hence its likes count).  The hypotheses `0 ≤ likes` and
`liked → 1 ≤ likes` hold in every state the program can reach (posts start
at 0 or the seeded positive counts with no likers, and by C2 the counter
tracks the likers). -/
theorem likePost_double_toggle (s : MemState) (pid uid : Nat) (p : Post)
    (hp : s.posts pid = some p) (h0 : 0 ≤ p.likes)
    (h1 : (pid, uid) ∈ s.postLikes → 1 ≤ p.likes) :
    memHasUserLikedPost (memLikePost (memLikePost s pid uid).2 pid uid).2 pid uid
      = memHasUserLikedPost s pid uid ∧
    (memLikePost (memLikePost s pid uid).2 pid uid).2.posts pid = some p := by
  by_cases hm : (pid, uid) ∈ s.postLikes
  · have hl := h1 hm
    constructor
    · simp [memLikePost, memHasUserLikedPost, hp, hm, Finset.not_mem_erase]
    · simp [memLikePost, hp, hm, Finset.not_mem_erase]
      rw [show (0 : Int) ⊔ (p.likes - 1) + 1 = p.likes by omega]
  · constructor
    · simp [memLikePost, memHasUserLikedPost, hp, hm, Finset.mem_insert]
    · simp [memLikePost, hp, hm, Finset.mem_insert]
      rw [show (0 : Int) ⊔ p.likes = p.likes by omega]

set_option maxRecDepth 4000 in
/-- Witness for C3: double-toggling user 1 on the seeded demo post 1
(24 likes, nobody in the like relation) restores both the status and the
post. -/
theorem likePost_double_toggle_w :
    memHasUserLikedPost (memLikePost (memLikePost memDemo 1 1).2 1 1).2 1 1
      = memHasUserLikedPost memDemo 1 1 ∧
    (memLikePost (memLikePost memDemo 1 1).2 1 1).2.posts 1 = some demoPost1 :=
  likePost_double_toggle memDemo 1 1 demoPost1 (by decide) (by decide) (by decide)

/-- C4: toggling a like on a post id that does not exist fails with a
not-found outcome — `likePost` returns `undefined` before any toggle work,
the endpoint answers 404 — and the store (like relation and all counters)
is returned unchanged, for both storage implementations. -/
theorem likePost_missing_post (s : MemState) (t : DbState) (pid uid now : Nat)
    (hs : s.posts pid = none) (ht : t.posts pid = none) :
    memLikePost s pid uid = (none, s) ∧
    dbLikePost t pid uid now = (none, t) ∧
    likeRoute t pid uid now = (LikeResponse.notFound, t) := by
  refine ⟨?_, ?_, ?_⟩ <;> simp [memLikePost, dbLikePost, dbLikePostRead, likeRoute, hs, ht]

/-- Witness for C4: post id 5 exists in neither empty store; the toggle
returns not-found and the very same state. -/
theorem likePost_missing_post_w :
    memLikePost emptyMem 5 1 = (none, emptyMem) ∧
    dbLikePost emptyDb 5 1 0 = (none, emptyDb) ∧
    likeRoute emptyDb 5 1 0 = (LikeResponse.notFound, emptyDb) :=
  likePost_missing_post emptyMem emptyDb 5 1 0 rfl rfl

set_option maxRecDepth 4000 in
/-- C6 evaluated at the failing input: the seeded store already holds a
user named "alex.johnson", yet `createUser` with that same username
succeeds and creates a second user with a fresh id — no `ConflictError`
path exists in `MemStorage.createUser`, although the schema declares
`username` unique. -/
theorem createUser_ignores_username_conflict :
    (memGetUserByUsername memDemo "alex.johnson").isSome = true ∧
    (memCreateUser memDemo
      { username := "alex.johnson", password := "pw2", fullName := "Second Alex"
        avatar := none, role := none }).1.id = 4 ∧
    (memCreateUser memDemo
      { username := "alex.johnson", password := "pw2", fullName := "Second Alex"
        avatar := none, role := none }).2.users.length = 4 ∧
    ((memCreateUser memDemo
      { username := "alex.johnson", password := "pw2", fullName := "Second Alex"
        avatar := none, role := none }).2.users.filter
        (fun u => u.username == "alex.johnson")).length = 2 := by
  decide

/-- C7: `getTimeAgo` realises exactly the spec's bucketing — thresholds at
60 seconds, 60 minutes, 24 hours and 30 days, counts by integer division
with months as days / 30, singular exactly at 1 for the minute and larger
buckets — and the three sample points evaluate as the spec says. -/
theorem timeAgo_bucketing :
    (∀ d : Nat, getTimeAgoSec d = timeAgoSpecFn d) ∧
    getTimeAgoSec 59 = "59 seconds ago" ∧
    getTimeAgoSec 60 = "1 minute ago" ∧
    getTimeAgoSec 3661 = "1 hour ago" := by
  refine ⟨fun d => ?_, by decide, by decide, by decide⟩
  unfold getTimeAgoSec timeAgoSpecFn timeAgoSpecFn.specUnit
  simp only [Nat.div_div_eq_div_mul]
  norm_num
  split_ifs <;> first | rfl | (exfalso; omega)

/-- C8 evaluated at the failing schedule: both users read post 1 (0 likes,
not liked) before either writes; each write phase then deletes/inserts its
like row and stores the absolute count computed from its own snapshot.
The final state has 2 like rows but `likes = 1` — one toggle's adjustment
is lost, because `DatabaseStorage.likePost` is not a transaction applying
a relative delta.  Under the same two-writer pattern the transactional
`createComment`, whose SQL delta is relative, counts both inserts. -/
theorem dbLikePost_lost_update :
    dbLikePostRead dbDemo 1 1 = some (dbPost1, false) ∧
    dbLikePostRead dbDemo 1 2 = some (dbPost1, false) ∧
    ((dbLikePostWrite (dbLikePostWrite dbDemo 1 1 501 (dbPost1, false)).2
        1 2 502 (dbPost1, false)).2.posts 1).map Post.likes = some 1 ∧
    (dbLikePostWrite (dbLikePostWrite dbDemo 1 1 501 (dbPost1, false)).2
        1 2 502 (dbPost1, false)).2.postLikes.length = 2 ∧
    ((dbCreateComment (dbCreateComment dbDemo
        { content := "c1", postId := 1, userId := 1 } 601 1).2
        { content := "c2", postId := 1, userId := 2 } 602 2).2.posts 1).map Post.comments
      = some 2 := by
  decide

/-- C10: `DatabaseStorage.getRecentActivities` returns the empty list in
every state, so the `GET /api/activities` route always responds with an
empty array. -/
theorem activities_always_empty (s : DbState) :
    dbGetRecentActivities s = [] ∧ activitiesRoute s = [] :=
  ⟨rfl, rfl⟩

/-- The result of `getCommentsByPostId` is always sorted newest-first
(descending `createdAt`), because the source sorts with the comparator
`b.createdAt - a.createdAt`. -/
lemma memGetComments_sorted (s : MemState) (pid : Nat) :
    List.Pairwise (fun a b : Comment => b.createdAt ≤ a.createdAt)
      (memGetCommentsByPostId s pid) := by
  have h := @List.sorted_mergeSort Comment
    (fun a b => decide (b.createdAt ≤ a.createdAt))
    (fun a b c hab hbc => by
      simp only [decide_eq_true_eq] at hab hbc ⊢
      omega)
    (fun a b => by
      simp only [Bool.or_eq_true, decide_eq_true_eq]
      omega)
    (s.comments.filter (fun c => c.postId == pid))
  exact h.imp (fun hab => of_decide_eq_true hab)

/-- The result of `DatabaseStorage.getCommentsByPostId` is likewise sorted
newest-first by its final JavaScript sort. -/
lemma dbGetComments_sorted (s : DbState) (pid : Nat) :
    List.Pairwise (fun a b : Comment => b.createdAt ≤ a.createdAt)
      (dbGetCommentsByPostId s pid) := by
  have h := @List.sorted_mergeSort Comment
    (fun a b => decide (b.createdAt ≤ a.createdAt))
    (fun a b c hab hbc => by
      simp only [decide_eq_true_eq] at hab hbc ⊢
      omega)
    (fun a b => by
      simp only [Bool.or_eq_true, decide_eq_true_eq]
      omega)
    ((s.comments.filter (fun c => c.postId == pid)).mergeSort
      (fun a b => decide (a.createdAt ≤ b.createdAt)))
  exact h.imp (fun hab => of_decide_eq_true hab)

/-- C5: `createComment` on an existing post returns a new comment carrying
the generated id (the next counter in `MemStorage`; the DB-assigned serial
`newId` carried back by `RETURNING` in `DatabaseStorage`) and
`createdAt = now`, increments that post's `comments` counter by exactly 1
— in `MemStorage` within the one step of the call, in `DatabaseStorage`
inside the single `db.transaction` that `dbCreateComment` embeds, so
insert and increment happen together or not at all — and afterwards the
comment list of the post has grown by exactly one entry and is ordered
newest-first, in both implementations. -/
theorem createComment_spec (s : MemState) (t : DbState) (d : InsertComment)
    (now newId : Nat) (p : Post) (hp : s.posts d.postId = some p)
    (q : Post) (hq : t.posts d.postId = some q) :
    (memCreateComment s d now).1.id = s.commentCurrentId ∧
    (memCreateComment s d now).1.createdAt = now ∧
    (memCreateComment s d now).2.posts d.postId = some { p with comments := p.comments + 1 } ∧
    (memGetCommentsByPostId (memCreateComment s d now).2 d.postId).length
      = (memGetCommentsByPostId s d.postId).length + 1 ∧
    List.Pairwise (fun a b : Comment => b.createdAt ≤ a.createdAt)
      (memGetCommentsByPostId (memCreateComment s d now).2 d.postId) ∧
    (dbCreateComment t d now newId).1.id = newId ∧
    (dbCreateComment t d now newId).1.createdAt = now ∧
    (dbCreateComment t d now newId).2.posts d.postId
      = some { q with comments := q.comments + 1 } ∧
    (dbGetCommentsByPostId (dbCreateComment t d now newId).2 d.postId).length
      = (dbGetCommentsByPostId t d.postId).length + 1 ∧
    List.Pairwise (fun a b : Comment => b.createdAt ≤ a.createdAt)
      (dbGetCommentsByPostId (dbCreateComment t d now newId).2 d.postId) := by
  refine ⟨?_, ?_, ?_, ?_, memGetComments_sorted _ _, rfl, rfl, ?_, ?_,
    dbGetComments_sorted _ _⟩
  · simp [memCreateComment, hp]
  · simp [memCreateComment, hp]
  · simp [memCreateComment, hp]
  · simp [memGetCommentsByPostId, memCreateComment, hp, List.length_mergeSort,
      List.filter_append]
  · simp [dbCreateComment, hq]
  · simp [dbGetCommentsByPostId, dbCreateComment, List.length_mergeSort,
      List.filter_append]

set_option maxRecDepth 4000 in
/-- Witness for C5: user 3 comments "Great!" on the seeded demo post 1
(counter 8 → 9, list 0 → 1 entries, newest-first) and on the database
post 1 (serial id 1, counter 0 → 1, list 0 → 1 entries, newest-first). -/
theorem createComment_spec_w :
    (memCreateComment memDemo { content := "Great!", postId := 1, userId := 3 } demoNow).1.id
      = memDemo.commentCurrentId ∧
    (memCreateComment memDemo { content := "Great!", postId := 1, userId := 3 } demoNow).1.createdAt
      = demoNow ∧
    (memCreateComment memDemo { content := "Great!", postId := 1, userId := 3 } demoNow).2.posts 1
      = some { demoPost1 with comments := demoPost1.comments + 1 } ∧
    (memGetCommentsByPostId
        (memCreateComment memDemo { content := "Great!", postId := 1, userId := 3 } demoNow).2 1).length
      = (memGetCommentsByPostId memDemo 1).length + 1 ∧
    List.Pairwise (fun a b : Comment => b.createdAt ≤ a.createdAt)
      (memGetCommentsByPostId
        (memCreateComment memDemo { content := "Great!", postId := 1, userId := 3 } demoNow).2 1) ∧
    (dbCreateComment dbDemo { content := "Great!", postId := 1, userId := 3 } demoNow 1).1.id
      = 1 ∧
    (dbCreateComment dbDemo { content := "Great!", postId := 1, userId := 3 } demoNow 1).1.createdAt
      = demoNow ∧
    (dbCreateComment dbDemo { content := "Great!", postId := 1, userId := 3 } demoNow 1).2.posts 1
      = some { dbPost1 with comments := dbPost1.comments + 1 } ∧
    (dbGetCommentsByPostId
        (dbCreateComment dbDemo { content := "Great!", postId := 1, userId := 3 } demoNow 1).2 1).length
      = (dbGetCommentsByPostId dbDemo 1).length + 1 ∧
    List.Pairwise (fun a b : Comment => b.createdAt ≤ a.createdAt)
      (dbGetCommentsByPostId
        (dbCreateComment dbDemo { content := "Great!", postId := 1, userId := 3 } demoNow 1).2 1) :=
  createComment_spec memDemo dbDemo { content := "Great!", postId := 1, userId := 3 } demoNow 1
    demoPost1 (by decide) dbPost1 (by decide)

/-- C9: `likePost` on post `pid` by user `uid` changes at most the
`(pid, uid)` membership of the like relation and `pid`'s `likes` field,
in both implementations: users, comments, `MemStorage`'s id counters,
every other post, the like rows of every other pair, and all remaining
fields of post `pid` (collected by `frameFields`) are unchanged. -/
theorem likePost_frame (s : MemState) (t : DbState) (pid uid now i a b : Nat) :
    (memLikePost s pid uid).2.users = s.users ∧
    (memLikePost s pid uid).2.comments = s.comments ∧
    (memLikePost s pid uid).2.userCurrentId = s.userCurrentId ∧
    (memLikePost s pid uid).2.postCurrentId = s.postCurrentId ∧
    (memLikePost s pid uid).2.commentCurrentId = s.commentCurrentId ∧
    (i = pid ∨ (memLikePost s pid uid).2.posts i = s.posts i) ∧
    ((a = pid ∧ b = uid) ∨
      ((a, b) ∈ (memLikePost s pid uid).2.postLikes ↔ (a, b) ∈ s.postLikes)) ∧
    ((memLikePost s pid uid).2.posts pid).map frameFields
      = (s.posts pid).map frameFields ∧
    (dbLikePost t pid uid now).2.users = t.users ∧
    (dbLikePost t pid uid now).2.comments = t.comments ∧
    (i = pid ∨ (dbLikePost t pid uid now).2.posts i = t.posts i) ∧
    ((a = pid ∧ b = uid) ∨
      (dbLikePost t pid uid now).2.postLikes.filter
          (fun r => r.postId == a && r.userId == b)
        = t.postLikes.filter (fun r => r.postId == a && r.userId == b)) ∧
    ((dbLikePost t pid uid now).2.posts pid).map frameFields
      = (t.posts pid).map frameFields := by
  have hdb :
      (dbLikePost t pid uid now).2.users = t.users ∧
      (dbLikePost t pid uid now).2.comments = t.comments ∧
      (i = pid ∨ (dbLikePost t pid uid now).2.posts i = t.posts i) ∧
      ((a = pid ∧ b = uid) ∨
        (dbLikePost t pid uid now).2.postLikes.filter
            (fun r => r.postId == a && r.userId == b)
          = t.postLikes.filter (fun r => r.postId == a && r.userId == b)) ∧
      ((dbLikePost t pid uid now).2.posts pid).map frameFields
        = (t.posts pid).map frameFields := by
    rcases htp : t.posts pid with _ | post
    · simp [dbLikePost, dbLikePostRead, htp]
    · by_cases hb : dbHasUserLikedPost t pid uid
      · have hb' :
            0 < (t.postLikes.filter (fun r => r.postId == pid && r.userId == uid)).length := by
          simpa [dbHasUserLikedPost] using hb
        refine ⟨by simp [dbLikePost, dbLikePostRead, dbLikePostWrite, dbHasUserLikedPost, htp, hb'],
          by simp [dbLikePost, dbLikePostRead, dbLikePostWrite, dbHasUserLikedPost, htp, hb'],
          ?_, ?_, ?_⟩
        · by_cases hi : i = pid
          · exact Or.inl hi
          · exact Or.inr (by
              simp [dbLikePost, dbLikePostRead, dbLikePostWrite, dbHasUserLikedPost, htp, hb', hi])
        · by_cases hab : a = pid ∧ b = uid
          · exact Or.inl hab
          · refine Or.inr ?_
            have hfil : List.filter (fun r => r.postId == a && r.userId == b)
                (t.postLikes.filter (fun r => !(r.postId == pid && r.userId == uid)))
                = t.postLikes.filter (fun r => r.postId == a && r.userId == b) := by
              rw [List.filter_filter]
              apply List.filter_congr
              intro r _
              by_cases h1 : r.postId = a <;> by_cases h2 : r.userId = b <;> simp [h1, h2]
              exact not_and_or.mp hab
            simp only [dbLikePost, dbLikePostRead, dbLikePostWrite, htp]
            rw [if_pos (by simpa [dbHasUserLikedPost] using hb')]
            exact hfil
        · simp [dbLikePost, dbLikePostRead, dbLikePostWrite, dbHasUserLikedPost, htp, hb',
            frameFields]
      · have hb' :
            ¬ 0 < (t.postLikes.filter (fun r => r.postId == pid && r.userId == uid)).length := by
          simpa [dbHasUserLikedPost] using hb
        refine ⟨by simp [dbLikePost, dbLikePostRead, dbLikePostWrite, dbHasUserLikedPost, htp, hb'],
          by simp [dbLikePost, dbLikePostRead, dbLikePostWrite, dbHasUserLikedPost, htp, hb'],
          ?_, ?_, ?_⟩
        · by_cases hi : i = pid
          · exact Or.inl hi
          · exact Or.inr (by
              simp [dbLikePost, dbLikePostRead, dbLikePostWrite, dbHasUserLikedPost, htp, hb', hi])
        · by_cases hab : a = pid ∧ b = uid
          · exact Or.inl hab
          · refine Or.inr ?_
            have hnew : ((pid == a) && (uid == b)) = false := by
              by_cases h1 : pid = a
              · by_cases h2 : uid = b
                · exact absurd ⟨h1.symm, h2.symm⟩ hab
                · simp [h2]
              · simp [h1]
            simp only [dbLikePost, dbLikePostRead, dbLikePostWrite, htp]
            rw [if_neg (by simpa [dbHasUserLikedPost] using hb')]
            simp [List.filter_append, hnew]
        · simp [dbLikePost, dbLikePostRead, dbLikePostWrite, dbHasUserLikedPost, htp, hb',
            frameFields]
  have hmem :
      (memLikePost s pid uid).2.users = s.users ∧
      (memLikePost s pid uid).2.comments = s.comments ∧
      (memLikePost s pid uid).2.userCurrentId = s.userCurrentId ∧
      (memLikePost s pid uid).2.postCurrentId = s.postCurrentId ∧
      (memLikePost s pid uid).2.commentCurrentId = s.commentCurrentId ∧
      (i = pid ∨ (memLikePost s pid uid).2.posts i = s.posts i) ∧
      ((a = pid ∧ b = uid) ∨
        ((a, b) ∈ (memLikePost s pid uid).2.postLikes ↔ (a, b) ∈ s.postLikes)) ∧
      ((memLikePost s pid uid).2.posts pid).map frameFields
        = (s.posts pid).map frameFields := ?_
  · exact ⟨hmem.1, hmem.2.1, hmem.2.2.1, hmem.2.2.2.1, hmem.2.2.2.2.1, hmem.2.2.2.2.2.1,
      hmem.2.2.2.2.2.2.1, hmem.2.2.2.2.2.2.2, hdb.1, hdb.2.1, hdb.2.2.1, hdb.2.2.2.1,
      hdb.2.2.2.2⟩
  clear hdb
  rcases hsp : s.posts pid with _ | post
  · simp [memLikePost, hsp]
  · by_cases hm : (pid, uid) ∈ s.postLikes
    · refine ⟨by simp [memLikePost, hsp, hm], by simp [memLikePost, hsp, hm],
        by simp [memLikePost, hsp, hm], by simp [memLikePost, hsp, hm],
        by simp [memLikePost, hsp, hm], ?_, ?_, ?_⟩
      · by_cases hi : i = pid
        · exact Or.inl hi
        · exact Or.inr (by simp [memLikePost, hsp, hm, hi])
      · by_cases hab : a = pid ∧ b = uid
        · exact Or.inl hab
        · have hne : (a, b) ≠ (pid, uid) := by
            intro hc
            exact hab ⟨congrArg Prod.fst hc, congrArg Prod.snd hc⟩
          exact Or.inr (by simp [memLikePost, hsp, hm, Finset.mem_erase, hne])
      · simp [memLikePost, hsp, hm, frameFields]
    · refine ⟨by simp [memLikePost, hsp, hm], by simp [memLikePost, hsp, hm],
        by simp [memLikePost, hsp, hm], by simp [memLikePost, hsp, hm],
        by simp [memLikePost, hsp, hm], ?_, ?_, ?_⟩
      · by_cases hi : i = pid
        · exact Or.inl hi
        · exact Or.inr (by simp [memLikePost, hsp, hm, hi])
      · by_cases hab : a = pid ∧ b = uid
        · exact Or.inl hab
        · have hne : (a, b) ≠ (pid, uid) := by
            intro hc
            exact hab ⟨congrArg Prod.fst hc, congrArg Prod.snd hc⟩
          exact Or.inr (by simp [memLikePost, hsp, hm, Finset.mem_insert, hne])
      · simp [memLikePost, hsp, hm, frameFields]

/-- One `likePost` call preserves "the post's `likes` counter equals the
number of `(post, user)` pairs for it in the like relation". -/
lemma likersCount_step (s : MemState) (pid a b : Nat)
    (h : ∀ p, s.posts pid = some p → p.likes = (likersCount s pid : Int)) :
    ∀ p, (memLikePost s a b).2.posts pid = some p →
      p.likes = (likersCount (memLikePost s a b).2 pid : Int) := by
  intro p hp
  rcases hsa : s.posts a with _ | post
  · simp only [memLikePost, hsa] at hp ⊢
    exact h p hp
  · by_cases hm : (a, b) ∈ s.postLikes
    · simp only [memLikePost, hsa, hm, if_true, ite_true] at hp ⊢
      unfold likersCount at h ⊢
      by_cases hpa : pid = a
      · subst hpa
        simp only [ite_true, if_pos] at hp
        simp only [Option.some.injEq] at hp
        have hpost := h post hsa
        have hmem : (pid, b) ∈ s.postLikes.filter (fun q => q.1 = pid) :=
          Finset.mem_filter.mpr ⟨hm, rfl⟩
        have hcard : 1 ≤ (s.postLikes.filter (fun q => q.1 = pid)).card :=
          Finset.card_pos.mpr ⟨_, hmem⟩
        rw [Finset.filter_erase, Finset.card_erase_of_mem hmem]
        subst hp
        simp only []
        omega
      · simp only [if_neg hpa] at hp
        have hthis := h p hp
        rw [Finset.filter_erase, Finset.erase_eq_of_not_mem]
        · exact hthis
        · intro hmem
          exact hpa (Finset.mem_filter.mp hmem).2.symm
    · simp only [memLikePost, hsa, hm, if_false, ite_false] at hp ⊢
      unfold likersCount at h ⊢
      by_cases hpa : pid = a
      · subst hpa
        simp only [ite_true, if_pos] at hp
        simp only [Option.some.injEq] at hp
        have hpost := h post hsa
        have hnm : (pid, b) ∉ s.postLikes.filter (fun q => q.1 = pid) := by
          intro hmem
          exact hm (Finset.mem_filter.mp hmem).1
        rw [Finset.filter_insert, if_pos rfl, Finset.card_insert_of_not_mem hnm]
        subst hp
        simp only []
        omega
      · simp only [if_neg hpa] at hp
        have hthis := h p hp
        rw [Finset.filter_insert, if_neg]
        · exact hthis
        · intro hcontra
          exact hpa hcontra.symm

/-- Any finite sequence of `likePost` toggles preserves the
counter-tracks-likers invariant. -/
lemma likersCount_toggles (ts : List (Nat × Nat)) (s : MemState) (pid : Nat)
    (h : ∀ p, s.posts pid = some p → p.likes = (likersCount s pid : Int)) :
    ∀ p, (memApplyToggles s ts).posts pid = some p →
      p.likes = (likersCount (memApplyToggles s ts) pid : Int) := by
  induction ts generalizing s with
  | nil => simpa [memApplyToggles] using h
  | cons t ts ih =>
      intro p hp
      exact ih _ (likersCount_step s pid t.1 t.2 h) p (by simpa [memApplyToggles] using hp)

/-- C2: a post created through `createPost` (which starts with 0 likes;
the hypothesis states its freshly assigned id has no likers yet, i.e. the
empty set of likers the claim describes) keeps, after any finite sequence
of `likePost` toggles by any users, a `likes` counter equal to the number
of users currently in the like relation for it — and hence never
negative. -/
theorem createPost_likes_tracks_likers (s : MemState) (d : InsertPost) (now : Nat)
    (ts : List (Nat × Nat)) (h0 : likersCount s s.postCurrentId = 0) :
    ∀ q, (memApplyToggles (memCreatePost s d now).2 ts).posts (memCreatePost s d now).1.id
        = some q →
      q.likes
        = (likersCount (memApplyToggles (memCreatePost s d now).2 ts)
            (memCreatePost s d now).1.id : Int) ∧
      0 ≤ q.likes := by
  intro q hq
  have hid : (memCreatePost s d now).1.id = s.postCurrentId := rfl
  have hbase : ∀ p, (memCreatePost s d now).2.posts s.postCurrentId = some p →
      p.likes = (likersCount (memCreatePost s d now).2 s.postCurrentId : Int) := by
    intro p hp
    simp only [memCreatePost, memCreatePostInternal, ite_true, if_pos,
      Option.some.injEq] at hp
    unfold likersCount at h0 ⊢
    rw [← hp, show (memCreatePost s d now).2.postLikes = s.postLikes from rfl, h0]
    rfl
  have hmain := likersCount_toggles ts _ s.postCurrentId hbase
  rw [hid] at hq ⊢
  have hres := hmain q hq
  refine ⟨hres, ?_⟩
  rw [hres]
  exact Int.natCast_nonneg _

/-- Witness for C2: create a post in the empty store, then toggles by
users 1 and 2 and again user 1; the final post has 1 like, one remaining
liker, and a non-negative counter. -/
theorem createPost_likes_tracks_likers_w :
    (memApplyToggles
        (memCreatePost emptyMem { title := "T", description := "D", fileName := none, userId := 1 } 1000).2
        [(1, 1), (1, 2), (1, 1)]).posts
        (memCreatePost emptyMem { title := "T", description := "D", fileName := none, userId := 1 } 1000).1.id
      = some { id := 1, title := "T", description := "D", fileName := none, userId := 1
               createdAt := 1000, likes := 1, comments := 0 } ∧
    (1 : Int)
      = (likersCount (memApplyToggles
          (memCreatePost emptyMem { title := "T", description := "D", fileName := none, userId := 1 } 1000).2
          [(1, 1), (1, 2), (1, 1)])
          (memCreatePost emptyMem { title := "T", description := "D", fileName := none, userId := 1 } 1000).1.id : Int) ∧
    (0 : Int) ≤ 1 :=
  ⟨by decide,
   (createPost_likes_tracks_likers emptyMem
      { title := "T", description := "D", fileName := none, userId := 1 } 1000
      [(1, 1), (1, 2), (1, 1)] (by decide)
      { id := 1, title := "T", description := "D", fileName := none, userId := 1
        createdAt := 1000, likes := 1, comments := 0 } (by decide)).1,
   (createPost_likes_tracks_likers emptyMem
      { title := "T", description := "D", fileName := none, userId := 1 } 1000
      [(1, 1), (1, 2), (1, 1)] (by decide)
      { id := 1, title := "T", description := "D", fileName := none, userId := 1
        createdAt := 1000, likes := 1, comments := 0 } (by decide)).2⟩

end DocShare
